import Mathlib

/-!
# Verification of the seasnake IR / code-emission core (`seasnake/model.py`)

This file gives a shallow embedding of the data model and emission routines
of `seasnake/model.py` (a C++-shaped AST that outputs Python source), and
proves the specification claims about it.

Conventions of the embedding:
* Python `None` becomes `Option.none`; Python object truthiness of an
  optional field becomes `Option.isSome`; string truthiness (`if name:`)
  additionally requires the string to be nonempty.
* Python `dict` / `OrderedDict` become association lists with
  insert-or-replace-in-place semantics (`dictInsert`), matching insertion
  order semantics of `OrderedDict` (and of `dict` in the Pythons this code
  targets).
* Python `set` becomes a duplicate-free list built by membership-checked
  insertion (`setAdd`); emission sorts it, exactly as the source does.
* Exceptions become `Except String`.
* The object graph with parent back-references (`Context.context`) is
  represented as an arena: a list of nodes addressed by index, each node
  holding its parent index.  Recursion along parent chains and along the
  lookup algorithm is expressed with an explicit fuel argument so that all
  definitions are structurally recursive and kernel-evaluable.
* The `Writer` sink is not part of `model.py` (it is an external
  collaborator); it is modelled from the spec, see `Writer` below.
-/

namespace Seasnake

/-! ## String utilities

`Context.__getitem__` uses Python's `str.replace` (remove every
non-overlapping occurrence, scanning left to right) and `str.split('::')`.
We implement both on `List Char` with fuel so they are structurally
recursive. -/

/-- One left-to-right pass of Python's `str.replace(pat, '')`: remove every
non-overlapping occurrence of `pat` (nonempty) from `s`, scanning left to
right.  `fuel` bounds the recursion; `s.length` suffices. -/
def removeAllAux (pat : List Char) : Nat → List Char → List Char
  | _, [] => []
  | 0, s => s
  | fuel + 1, c :: rest =>
    if pat.isPrefixOf (c :: rest) then
      removeAllAux pat fuel ((c :: rest).drop pat.length)
    else
      c :: removeAllAux pat fuel rest

/-- Python `s.replace(pat, '')` for a nonempty pattern. -/
def removeAll (pat : String) (s : String) : String :=
  ⟨removeAllAux pat.data s.data.length s.data⟩

/-- Python `'::' in s`. -/
def containsScope : List Char → Bool
  | ':' :: ':' :: _ => true
  | _ :: rest => containsScope rest
  | [] => false

/-- Python `s.split('::')` (leftmost, non-overlapping). -/
def splitScopeAux : List Char → List (List Char)
  | [] => [[]]
  | ':' :: ':' :: rest => [] :: splitScopeAux rest
  | c :: rest =>
    match splitScopeAux rest with
    | h :: t => (c :: h) :: t
    | [] => [[c]]

/-- Python `s.split('::')` returning `String`s. -/
def splitScope (s : String) : List String :=
  (splitScopeAux s.data).map (fun cs => ⟨cs⟩)

/-- The qualifier stripping performed at the top of `Context.__getitem__`:
literal removal of `const`, `class`, `virtual` and spaces, in that order. -/
def stripQualifiers (s : String) : String :=
  removeAll " " (removeAll "virtual" (removeAll "class" (removeAll "const" s)))

/-- `dict`/`OrderedDict` assignment `d[k] = v`: replace in place if the key
is present, else append at the end. -/
def dictInsert {α β : Type} [DecidableEq α] (k : α) (v : β) :
    List (α × β) → List (α × β)
  | [] => [(k, v)]
  | (k', v') :: rest =>
    if k' = k then (k, v) :: rest else (k', v') :: dictInsert k v rest

/-- Python `set.add`: insert if not already a member. -/
def setAdd {α : Type} [DecidableEq α] (x : α) (s : List α) : List α :=
  if x ∈ s then s else s ++ [x]

/-- Lexicographic comparison of character lists by code point, exactly
Python's string ordering (a strict prefix is smaller). -/
def charListLt : List Char → List Char → Bool
  | [], [] => false
  | [], _ :: _ => true
  | _ :: _, [] => false
  | c :: cs, d :: ds =>
      if c.toNat < d.toNat then true
      else if d.toNat < c.toNat then false
      else charListLt cs ds

/-- Python `<` on strings (code-point lexicographic). -/
def strLt (a b : String) : Bool := charListLt a.data b.data

/-- Insert into a lexicographically ascending list of strings (helper for
`Python sorted`). -/
def insertStr (x : String) : List String → List String
  | [] => [x]
  | y :: rest => if strLt y x then y :: insertStr x rest else x :: y :: rest

/-- Python `sorted` on a collection of strings (ascending lexicographic
order on code points, which is `String.lt`). -/
def sortStrs (l : List String) : List String :=
  l.foldr insertStr []

end Seasnake

namespace Seasnake

/-! ## Expressions (`model.py` lines 46–54, 961–1258)

Expressions are context-free nodes.  `Literal.value` is stored here as the
string `text(value)` produces, since `Literal.output` writes exactly that
text.  `VariableReference`/`TypeReference` render `self.module_name`, a
field computed by `add_imports`; the constructor here holds that rendered
name (the import computation itself is modelled separately on the arena,
see `typeRefAddImports`). -/

/-- The subset of `clang.cindex.TypeKind` values that `Cast.output`
distinguishes; every other kind takes the final pass-through branch and is
represented by `OTHER`. -/
inductive TypeKind where
  | BOOL | CHAR_U | UCHAR | CHAR16 | CHAR32 | CHAR_S | SCHAR | WCHAR
  | USHORT | UINT | ULONG | ULONGLONG | UINT128
  | SHORT | INT | LONG | LONGLONG | INT128
  | FLOAT | DOUBLE | LONGDOUBLE
  | OTHER
deriving DecidableEq, Repr

/-- The expression node kinds of `model.py`. -/
inductive Expr where
  | literal (value : String)
  | listLiteral (value : List Expr)
  | unaryOperation (op : String) (value : Expr)
  | binaryOperation (lvalue : Expr) (op : String) (rvalue : Expr)
  | conditionalOperation (condition true_result false_result : Expr)
  | parentheses (body : Expr)
  | arraySubscript (value index : Expr)
  | cast (typekind : TypeKind) (value : Expr)
  | invoke (fn : Expr) (arguments : List Expr)
  | newObject (typeref : Expr) (arguments : List Expr)
  | selfReference
  | attributeReference (instanceExpr : Expr) (attr : String)
  | variableReference (module_name : String)
  | typeReference (module_name : String)
  | primitiveTypeReference (name : String)
deriving Repr

/-- The operator translation table of `UnaryOperation.output`
(`model.py` 1012–1015): a `dict.get` with the token itself as default. -/
def pythonUnaryOp : String → String
  | "!" => "not "
  | "~" => "~"
  | s => s

/-- The operator translation table of `BinaryOperation.output`
(`model.py` 1045–1088): a `dict.get` with the token itself as default. -/
def pythonBinaryOp : String → String
  | "=" => " = "
  | "+" => " + "
  | "-" => " - "
  | "*" => " * "
  | "/" => " / "
  | "%" => " % "
  | "==" => " == "
  | "!=" => " != "
  | ">" => " > "
  | "<" => " < "
  | ">=" => " >= "
  | "<=" => " <= "
  | "&" => " & "
  | "|" => " | "
  | "^" => " ^ "
  | "<<" => " << "
  | ">>" => " >> "
  | "+=" => " += "
  | "-=" => " -= "
  | "*=" => " *= "
  | "/=" => " /= "
  | "%=" => " %= "
  | "&=" => " &= "
  | "|=" => " |= "
  | "^=" => " ^= "
  | "<<=" => " <<= "
  | ">>=" => " >>= "
  | "&&" => " and "
  | "||" => " or "
  | s => s

/-- The keys of the `BinaryOperation.output` table. -/
def binaryOpKeys : List String :=
  ["=", "+", "-", "*", "/", "%", "==", "!=", ">", "<", ">=", "<=",
   "&", "|", "^", "<<", ">>", "+=", "-=", "*=", "/=", "%=",
   "&=", "|=", "^=", "<<=", ">>=", "&&", "||"]

/-- The character/text `TypeKind` family of `Cast.output`. -/
def charKinds : List TypeKind :=
  [.CHAR_U, .UCHAR, .CHAR16, .CHAR32, .CHAR_S, .SCHAR, .WCHAR]

/-- The integer `TypeKind` family of `Cast.output`. -/
def intKinds : List TypeKind :=
  [.USHORT, .UINT, .ULONG, .ULONGLONG, .UINT128,
   .SHORT, .INT, .LONG, .LONGLONG, .INT128]

/-- The floating-point `TypeKind` family of `Cast.output`. -/
def floatKinds : List TypeKind := [.FLOAT, .DOUBLE, .LONGDOUBLE]

mutual

/-- The text an expression's `output` method appends to the writer.
Expression emission only ever appends to the current line, so it is modelled
as a pure string.  Each branch is the corresponding `output` method from
`model.py`; `UnaryOperation.output` is taken at its default `depth=0`. -/
def Expr.out : Expr → String
  | .literal value => value
  | .listLiteral value => "[" ++ Expr.outJoin value ++ "]"
  | .unaryOperation op value => pythonUnaryOp op ++ value.out
  | .binaryOperation lvalue op rvalue =>
      lvalue.out ++ pythonBinaryOp op ++ rvalue.out
  | .conditionalOperation condition t f =>
      t.out ++ " if " ++ condition.out ++ " else " ++ f.out
  | .parentheses body =>
      match body with
      | .binaryOperation l op r =>
          "(" ++ (Expr.binaryOperation l op r).out ++ ")"
      | .conditionalOperation c t f =>
          "(" ++ (Expr.conditionalOperation c t f).out ++ ")"
      | b => b.out
  | .arraySubscript value index => value.out ++ "[" ++ index.out ++ "]"
  | .cast typekind value =>
      if typekind = .BOOL then "bool(" ++ value.out ++ ")"
      else if typekind ∈ charKinds then "str(" ++ value.out ++ ")"
      else if typekind ∈ intKinds then "int(" ++ value.out ++ ")"
      else if typekind ∈ floatKinds then "float(" ++ value.out ++ ")"
      else value.out
  | .invoke fn arguments => fn.out ++ "(" ++ Expr.outJoin arguments ++ ")"
  | .newObject typeref arguments =>
      typeref.out ++ "(" ++ Expr.outJoin arguments ++ ")"
  | .selfReference => "self"
  | .attributeReference instanceExpr attr => instanceExpr.out ++ "." ++ attr
  | .variableReference module_name => module_name
  | .typeReference module_name => module_name
  | .primitiveTypeReference name => name

/-- `', '.join` of rendered expressions, as `ListLiteral.output`,
`Invoke.output` and `New.output` produce it. -/
def Expr.outJoin : List Expr → String
  | [] => ""
  | [x] => x.out
  | x :: y :: rest => x.out ++ ", " ++ Expr.outJoin (y :: rest)

end

/-- `clean_argument`: the base `Expression.clean_argument` returns `self`
(`model.py` 53–54); `UnaryOperation` strips `&`/`*` recursively
(1020–1027); `ArraySubscript` returns itself (1144–1145); `Cast` returns
its wrapped value (1204–1205). -/
def Expr.clean_argument : Expr → Expr
  | .unaryOperation op value =>
      if op = "&" then value.clean_argument
      else if op = "*" then value.clean_argument
      else .unaryOperation op value
  | .arraySubscript value index => .arraySubscript value index
  | .cast _ value => value
  | e => e

/-! ## The Writer sink

Modelled from the spec: the low-level text sink is an external collaborator
(not in `src/`); §4.5 specifies its contract: append raw text to the
current line; terminate/flush the current line; push/pop one indentation
level; and two idempotent blank-line directives, "ensure exactly one blank
separator" and "ensure exactly two", that collapse repeats rather than
accumulating.  We record each flushed line together with the indentation
level at which it was begun; a blank separator line is `(0, "")`.  The
blank-line directives first flush the current line, then normalise the
trailing run of blank lines to exactly the requested count; before any
content has been written they add no separator (output starts with
content, per §6's persisted-format contract). -/

structure Writer where
  lines : List (Nat × String)
  current : Option (Nat × String)
  indent : Nat
deriving DecidableEq, Repr

/-- Append raw text to the current line; a fresh line picks up the current
indentation level. -/
def Writer.write (w : Writer) (s : String) : Writer :=
  match w.current with
  | some (i, t) => { w with current := some (i, t ++ s) }
  | none => { w with current := some (w.indent, s) }

/-- Terminate/flush the current line. -/
def Writer.clear_line (w : Writer) : Writer :=
  match w.current with
  | some l => { w with lines := w.lines ++ [l], current := none }
  | none => w

/-- Push one indentation level. -/
def Writer.start_block (w : Writer) : Writer :=
  { w with indent := w.indent + 1 }

/-- Pop one indentation level (flushing the current line first). -/
def Writer.end_block (w : Writer) : Writer :=
  let w := w.clear_line
  { w with indent := w.indent - 1 }

/-- Strip the trailing run of blank lines. -/
def dropTrailingBlanks (l : List (Nat × String)) : List (Nat × String) :=
  (l.reverse.dropWhile (fun p => p.2 = "")).reverse

/-- Normalise the trailing blank-line run to exactly `n` separators
(idempotent; no separator before any content exists). -/
def Writer.ensureBlanks (w : Writer) (n : Nat) : Writer :=
  let w := w.clear_line
  let core := dropTrailingBlanks w.lines
  if core = [] then { w with lines := core }
  else { w with lines := core ++ List.replicate n (0, "") }

/-- "Ensure exactly one blank separator" (member separator). -/
def Writer.clear_minor_block (w : Writer) : Writer := w.ensureBlanks 1

/-- "Ensure exactly two blank separators" (top-level separator). -/
def Writer.clear_major_block (w : Writer) : Writer := w.ensureBlanks 2

/-- The lines of a writer that carry content (blank separators dropped). -/
def contentLines (w : Writer) : List (Nat × String) :=
  w.lines.filter (fun p => p.2 ≠ "")

/-! ## Class/Struct/Union components (`model.py` 278–294, 548–717) -/

/-- `Parameter` (`model.py` 278–294).  `default = UNDEFINED` becomes
`none`.  `ctype` is a string: `Class.add_constructor` joins ctypes with
`','.join`. -/
structure Parameter where
  name : String
  ctype : String
  default : Option Expr
deriving Repr

/-- `Parameter.output` (`model.py` 290–294). -/
def Parameter.output (p : Parameter) (out : Writer) : Writer :=
  let out := out.write p.name
  match p.default with
  | some d => (out.write "=").write d.out
  | none => out

/-- `Attribute` (`model.py` 548–572): a named, optionally defaulted value
slot. -/
structure Attribute where
  name : String
  value : Option Expr
deriving Repr

/-- `Attribute.output` (`model.py` 559–572).  With `init = true` the
defaulted form is the conditional `self.n = n if n else <default>` and the
no-default form is the unconditional `self.n = n`; with `init = false` the
declared value (or `None`) is assigned. -/
def Attribute.output (a : Attribute) (out : Writer) (init : Bool) : Writer :=
  let out := out.write ("self." ++ a.name ++ " = ")
  let out :=
    if init then
      match a.value with
      | some v => (out.write (a.name ++ " if " ++ a.name ++ " else ")).write v.out
      | none => out.write a.name
    else
      match a.value with
      | some v => out.write v.out
      | none => out.write "None"
  out.clear_line

/-- `Constructor` (`model.py` 575–629): anonymous context holding
parameters and statements.  Statements are expression statements. -/
structure Constructor where
  parameters : List Parameter
  statements : List Expr
deriving Repr

/-- `Constructor.output` (`model.py` 600–629); `attributes` is
`self.context.attributes`, the owning class's ordered attribute table. -/
def Constructor.output (c : Constructor) (attributes : List Attribute)
    (out : Writer) : Writer :=
  let out := out.clear_minor_block
  let out :=
    if !c.parameters.isEmpty then
      out.write ("def __init__(self, " ++
        String.intercalate ", "
          (c.parameters.enum.map (fun ip =>
            if ip.2.name ≠ "" then ip.2.name
            else "arg" ++ toString (ip.1 + 1))) ++ "):")
    else
      out.write "def __init__(self):"
  let out := out.start_block
  let out :=
    if !attributes.isEmpty || !c.statements.isEmpty then
      let withValue := attributes.filter (fun a => a.value.isSome)
      let out := withValue.foldl
        (fun out a => a.output out.clear_line false) out
      let has_init := !withValue.isEmpty
      if !c.statements.isEmpty then
        c.statements.foldl (fun out st => (out.clear_line).write st.out) out
      else if !has_init then
        (out.clear_line).write "pass"
      else out
    else
      (out.clear_line).write "pass"
  out.end_block

/-- `Destructor` (`model.py` 632–662): anonymous context; `statements`
starts as `None` and becomes a (nonempty) list once a statement is added. -/
structure Destructor where
  parameters : List Parameter
  statements : Option (List Expr)
deriving Repr

/-- `Destructor.output` (`model.py` 651–662). -/
def Destructor.output (d : Destructor) (out : Writer) : Writer :=
  let out := out.clear_minor_block
  let out := out.write "def __del__(self):"
  let out := out.start_block
  let out :=
    match d.statements with
    | some (st :: rest) =>
        (st :: rest).foldl (fun (out : Writer) (s : Expr) => (out.clear_line).write s.out) out
    | _ => (out.clear_line).write "pass"
  out.end_block

/-- `Method` (`model.py` 665–717). -/
structure Method where
  name : String
  parameters : List Parameter
  statements : Option (List Expr)
  pure_virtual : Bool
  static : Bool
deriving Repr

/-- `Method.output` (`model.py` 691–717). -/
def Method.output (m : Method) (out : Writer) : Writer :=
  let out := out.clear_minor_block
  let out :=
    if m.static then
      (((out.write "@staticmethod").clear_line).write ("def " ++ m.name ++ "("))
    else
      out.write ("def " ++ m.name ++ "(self")
  let out := m.parameters.enum.foldl
    (fun out ip =>
      let out := if ip.1 ≠ 0 || !m.static then out.write ", " else out
      ip.2.output out) out
  let out := out.write "):"
  let out := out.start_block
  let out :=
    match m.statements with
    | some (st :: rest) =>
        (st :: rest).foldl (fun (out : Writer) (s : Expr) => (out.clear_line).write s.out) out
    | _ =>
        if m.pure_virtual then (out.clear_line).write "raise NotImplementedError()"
        else (out.clear_line).write "pass"
  out.end_block

/-! ## Classes, Structs and Unions (`model.py` 322–457, 464–541)

`Class`, `Struct` and `Union` are merged into one recursive type so that
nested class tables (`self.classes`) can be represented; the three
constructors carry exactly the fields of the three Python classes that
their `output` methods consult.  A `Struct` also owns a `constructors`
dict in the source, but `Struct.add_constructor` drops every constructor
and `Struct.output` never reads the dict, so the struct state here keeps
the (always empty) table for fidelity of `add_constructor`. -/

inductive ClassLike where
  | cls (name : String) (superclass : Option String)
      (constructors : List (List String × Constructor))
      (destructor : Option Destructor)
      (attributes : List Attribute) (methods : List Method)
      (classes : List ClassLike)
  | strct (name : String) (superclass : Option String)
      (constructors : List (List String × Constructor))
      (destructor : Option Destructor)
      (attributes : List Attribute) (methods : List Method)
      (classes : List ClassLike)
  | uni (name : String) (superclass : Option String)
      (attributes : List Attribute) (methods : List Method)
      (classes : List ClassLike)
deriving Repr

/-- `Struct.add_constructor` (`model.py` 346–347): the constructor is
dropped; the only effect is the diagnostic
"Ignoring constructor for struct ..." on stderr (returned as the `Bool`). -/
def structAddConstructor (s : ClassLike) (_method : Constructor) :
    ClassLike × Bool :=
  (s, true)

/-- `Class.add_constructor` (`model.py` 489–499): key the constructor by
the tuple of its parameters' declared ctypes; a same-signature constructor
overwrites in place, a new signature is appended; the
"Multiple constructors" diagnostic is printed exactly when the table then
holds more than one entry (returned as the `Bool`). -/
def classAddConstructor (constructors : List (List String × Constructor))
    (method : Constructor) : List (List String × Constructor) × Bool :=
  let signature := method.parameters.map (fun p => p.ctype)
  let constructors := dictInsert signature method constructors
  (constructors, decide (constructors.length > 1))

/-- `Class.add_destructor` = `Struct.add_destructor` (`model.py` 501–508
and 349–356, textually identical): store when the slot is empty; replace a
registered destructor whose `statements` is still `None`; otherwise raise
"Cannot handle multiple desructors" (sic). -/
def add_destructor (destructor : Option Destructor) (method : Destructor) :
    Except String (Option Destructor) :=
  match destructor with
  | some d =>
      if d.statements.isNone then .ok (some method)
      else .error "Cannot handle multiple desructors"
  | none => .ok (some method)

/-- Lexicographic order on signature tuples, as Python compares tuples of
strings (`sorted(self.constructors.items())` compares keys first; keys in a
dict are distinct). -/
def sigLt : List String → List String → Bool
  | [], [] => false
  | [], _ :: _ => true
  | _ :: _, [] => false
  | x :: xs, y :: ys =>
      if strLt x y then true else if strLt y x then false else sigLt xs ys

/-- Insertion step for `sorted(self.constructors.items())`. -/
def insertCtor (x : List String × Constructor) :
    List (List String × Constructor) → List (List String × Constructor)
  | [] => [x]
  | y :: rest => if sigLt y.1 x.1 then y :: insertCtor x rest else x :: y :: rest

/-- `sorted(self.constructors.items())`. -/
def sortCtorItems (l : List (List String × Constructor)) :
    List (List String × Constructor) :=
  l.foldr insertCtor []

/-- Emission of a `Class` (`model.py` 519–541), `Struct` (367–397) or
`Union` (432–457).  `fuel` bounds the nesting depth of nested class
tables (any fuel at least the nesting depth gives the source behaviour);
at fuel 0 the writer is returned unchanged.

Note two asymmetries taken verbatim from the source: `Class.output` tests
`constructors or destructor or classes or methods` (not attributes) and
synthesizes no attribute initializer, while `Struct.output` and
`Union.output` test attributes and synthesize `__init__` from them; and
`Union.output` contains an extra `out.end_block()` inside its `else`
branch (line 456) in addition to the final one (line 457). -/
def ClassLike.output : Nat → ClassLike → Writer → Writer
  | 0, _, out => out
  | fuel + 1, .cls name superclass constructors destructor attributes methods classes, out =>
    let out := out.clear_major_block
    let out :=
      match superclass with
      | some sc => out.write ("class " ++ name ++ "(" ++ sc ++ "):")
      | none => out.write ("class " ++ name ++ ":")
    let out := out.start_block
    let out :=
      if !constructors.isEmpty || destructor.isSome || !classes.isEmpty || !methods.isEmpty then
        let out := (sortCtorItems constructors).foldl
          (fun out sc => sc.2.output attributes out) out
        let out :=
          match destructor with
          | some d => d.output out
          | none => out
        let out := classes.foldl (fun out k => ClassLike.output fuel k out) out
        methods.foldl (fun out m => m.output out) out
      else
        (out.clear_line).write "pass"
    out.end_block
  | fuel + 1, .strct name superclass _constructors destructor attributes methods classes, out =>
    let out := out.clear_major_block
    let out :=
      match superclass with
      | some sc => out.write ("class " ++ name ++ "(" ++ sc ++ "):")
      | none => out.write ("class " ++ name ++ ":")
    let out := out.start_block
    let out :=
      if !attributes.isEmpty || destructor.isSome || !classes.isEmpty || !methods.isEmpty then
        let out :=
          if !attributes.isEmpty then
            let params := String.join
              (attributes.map (fun a => ", " ++ a.name ++ "=None"))
            let out := (out.clear_line).write ("def __init__(self" ++ params ++ "):")
            let out := out.start_block
            let out := attributes.foldl
              (fun out a => a.output out.clear_line true) out
            out.end_block
          else out
        let out :=
          match destructor with
          | some d => d.output out
          | none => out
        let out := classes.foldl (fun out k => ClassLike.output fuel k out) out
        methods.foldl (fun out m => m.output out) out
      else
        (out.clear_line).write "pass"
    out.end_block
  | fuel + 1, .uni name _superclass attributes methods classes, out =>
    let out := out.clear_major_block
    let out := out.write ("class " ++ name ++ ":")
    let out := out.start_block
    let out :=
      if !attributes.isEmpty || !classes.isEmpty || !methods.isEmpty then
        let out :=
          if !attributes.isEmpty then
            let params := String.join
              (attributes.map (fun a => ", " ++ a.name ++ "=None"))
            let out := (out.clear_line).write ("def __init__(self" ++ params ++ "):")
            let out := out.start_block
            let out := attributes.foldl
              (fun out a => a.output out.clear_line true) out
            out.end_block
          else out
        let out := classes.foldl (fun out k => ClassLike.output fuel k out) out
        methods.foldl (fun out m => m.output out) out
      else
        let out := (out.clear_line).write "pass"
        out.end_block
    out.end_block

/-! ## The Context/Declaration arena (`model.py` 57–127)

Nodes carry a non-owning back-reference to their parent context, so the
object graph is represented as an arena: a list of nodes addressed by
index, each holding its parent's index.  `isModule` distinguishes `Module`
nodes (consulted by `isinstance(new_candidate, Module)` in the import
walk); `isCtx` distinguishes `Context` subclasses, which are the only
nodes with a `__getitem__` (indexing a non-context raises). -/

structure Node where
  context : Option Nat
  name : Option String
  names : List (String × Nat)
  isModule : Bool
  isCtx : Bool
deriving DecidableEq, Repr

/-- An arena of nodes; indices into `nodes` play the role of object
references. -/
structure Arena where
  nodes : List Node
deriving DecidableEq, Repr

def Arena.get? (a : Arena) (i : Nat) : Option Node := a.nodes.get? i

/-- The parent context reference of node `i`. -/
def parentOf (a : Arena) (i : Nat) : Option Nat :=
  (a.get? i).bind (fun nd => nd.context)

/-- `Declaration.root` (`model.py` 82–87): follow the context chain to the
node with no context.  `fuel` bounds the walk; `a.nodes.length` suffices
for any acyclic arena. -/
def rootIdx (a : Arena) : Nat → Nat → Nat
  | 0, i => i
  | fuel + 1, i =>
    match parentOf a i with
    | some p => rootIdx a fuel p
    | none => i

/-- The name table of node `i`. -/
def tableOf (a : Arena) (i : Nat) : List (String × Nat) :=
  match a.get? i with
  | some nd => nd.names
  | none => []

/-- `Declaration.full_name` (`model.py` 76–80). -/
def fullName (a : Arena) : Nat → Nat → String
  | 0, _ => ""
  | fuel + 1, i =>
    match a.get? i with
    | none => ""
    | some nd =>
      match nd.context with
      | none => nd.name.getD ""
      | some p => fullName a fuel p ++ "::" ++ nd.name.getD ""

/-- `Context.__getitem__` (`model.py` 97–124): strip cosmetic qualifiers;
if the stripped name contains `::`, restart at the root and resolve each
segment in turn (each segment through this same method); otherwise look in
the local table and on a miss delegate to the parent context, failing at
the root.  Indexing a non-context raises (`TypeError`).  `fuel` bounds the
recursion. -/
def getItem (a : Arena) : Nat → Nat → String → Except String Nat
  | 0, _, _ => .error "fuel exhausted"
  | fuel + 1, i, rawName =>
    match a.get? i with
    | none => .error "invalid node reference"
    | some nd =>
      if !nd.isCtx then .error "TypeError: not a context"
      else
        let name := stripQualifiers rawName
        if containsScope name.data then
          (splitScope name).foldlM (fun d part => getItem a fuel d part)
            (rootIdx a a.nodes.length i)
        else
          match (tableOf a i).lookup name with
          | some j => .ok j
          | none =>
            match nd.context with
            | some p => getItem a fuel p name
            | none => .error ("KeyError: " ++ name)

/-- `Declaration.__init__` (`model.py` 63–68): append the new node and, if
`context and name` are both truthy (`context` non-`None`; `name`
non-`None` and nonempty), register the new node in the parent context's
name table. -/
def declInit (a : Arena) (context : Option Nat) (name : Option String)
    (isModule isCtx : Bool) : Arena :=
  let newIdx := a.nodes.length
  let nodes := a.nodes ++
    [{ context := context, name := name, names := [],
       isModule := isModule, isCtx := isCtx }]
  match context, name with
  | some c, some s =>
      if s = "" then ⟨nodes⟩
      else
        match nodes.get? c with
        | some nd =>
            ⟨nodes.set c { nd with names := dictInsert s newIdx nd.names }⟩
        | none => ⟨nodes⟩
  | _, _ => ⟨nodes⟩

/-- Node `j` is a value of some context's name table. -/
def inSomeTable (a : Arena) (j : Nat) : Prop :=
  ∃ nd ∈ a.nodes, ∃ p ∈ nd.names, p.2 = j

instance (a : Arena) (j : Nat) : Decidable (inSomeTable a j) := by
  unfold inSomeTable; infer_instance

/-- Every name-table value is a valid node index (true of every arena built
by construction calls: tables only ever receive the index of the node just
appended). -/
def tablesBounded (a : Arena) : Prop :=
  ∀ nd ∈ a.nodes, ∀ p ∈ nd.names, p.2 < a.nodes.length

instance (a : Arena) : Decidable (tablesBounded a) := by
  unfold tablesBounded; infer_instance

/-! ## The import collector (`model.py` 148–167, 861–904) -/

/-- A module's import set: dotted path → set of imported symbol names;
`none` is the `symbol=None` default of `add_import` (a bare module
import). -/
abbrev Imports := List (String × List (Option String))

/-- `Module.add_import` (`model.py` 148–149):
`self.imports.setdefault(path, set()).add(symbol)`. -/
def addImport (imports : Imports) (path : String) (symbol : Option String) :
    Imports :=
  dictInsert path (setAdd symbol ((imports.lookup path).getD [])) imports

/-- The import section of `Module.output` (`model.py` 157–167): paths in
sorted order; a path with a truthy (non-empty) symbol set becomes one
grouped `from path import a, b` with sorted symbols, an empty set becomes
`import path`.  Sorting/joining a set containing `None` raises a
`TypeError` in the source; that is the `Except.error` case. -/
def importLines (imports : Imports) : Except String (List String) :=
  (sortStrs (imports.map (fun p => p.1))).mapM (fun path =>
    let syms := (imports.lookup path).getD []
    if !syms.isEmpty then do
      let strs ← syms.mapM (fun x =>
        match x with
        | some s => Except.ok s
        | none => Except.error "TypeError: expected str instance, NoneType found")
      Except.ok ("from " ++ path ++ " import " ++
        String.intercalate ", " (sortStrs strs))
    else
      Except.ok ("import " ++ path))

/-- The fields `TypeReference.add_imports` computes on `self`, plus the
updated import set of the emitting module. -/
structure TypeRefResult where
  imports : Imports
  name : String
  module_name : String
  scope : String
deriving DecidableEq, Repr

/-- `TypeReference.add_imports` (`model.py` 869–901): split the reference
on `::`; walk from the emitting module's root, extending the dotted scope
while candidates are `Module`s; the context of the first non-module
candidate is the declaring module and the remaining segments the relative
symbol path.  If the declaring module's qualified name differs from the
emitting module's, add an import of the leading symbol under the scope
path.  A reference whose segments are all modules raises in the source
(`name_parts[-1]` on an empty list / `decl_mod.full_name` on `None`). -/
def typeRefAddImports (a : Arena) (fuel : Nat) (module : Nat) (ref : String)
    (imports : Imports) : Except String TypeRefResult := do
  let parts := splitScope ref
  let rootI := rootIdx a a.nodes.length module
  let rootName :=
    match a.get? rootI with
    | some nd => nd.name.getD ""
    | none => ""
  let st ← parts.foldlM
    (fun (st : Option Nat × List String × List String × Nat) part => do
      let (decl_mod, name_parts, scope_parts, candidate) := st
      let new_candidate ← getItem a fuel candidate part
      let isMod :=
        match a.get? new_candidate with
        | some nd => nd.isModule
        | none => false
      match decl_mod with
      | none =>
          if isMod then
            pure (none, name_parts, scope_parts ++ [part], new_candidate)
          else
            pure (some candidate, name_parts ++ [part], scope_parts, new_candidate)
      | some dm => pure (some dm, name_parts ++ [part], scope_parts, new_candidate))
    ((none, [], [rootName], rootI) : Option Nat × List String × List String × Nat)
  let (decl_mod, name_parts, scope_parts, _) := st
  match decl_mod, name_parts with
  | some dm, n0 :: rest =>
      let name := (n0 :: rest).getLast (List.cons_ne_nil n0 rest)
      let module_name := String.intercalate "." (n0 :: rest)
      let scope := String.intercalate "." scope_parts
      let imports :=
        if fullName a (a.nodes.length + 1) module ≠ fullName a (a.nodes.length + 1) dm then
          addImport imports scope (some n0)
        else imports
      pure { imports := imports, name := name,
             module_name := module_name, scope := scope }
  | _, _ => .error "reference resolves to no declaration"

/-! ## Concrete scenarios and expected-output forms used by the claims -/

/-- Flushing an optional current line. -/
def flushOpt : Option (Nat × String) → List (Nat × String)
  | none => []
  | some l => [l]

/-- The initializer-body assignment `Attribute.output` emits for one
attribute with `init=True`: unconditional `self.n = n` without a default,
conditional `self.n = n if n else <default>` with one. -/
def attrInitStr (a : Attribute) : String :=
  "self." ++ a.name ++ " = " ++
    (match a.value with
     | some v => a.name ++ " if " ++ a.name ++ " else " ++ v.out
     | none => a.name)

/-- A fresh writer. -/
def w0 : Writer := ⟨[], none, 0⟩

/-- A writer one indentation level deep (as inside an enclosing scope). -/
def w1 : Writer := ⟨[], none, 1⟩

/-- The attributes of the spec's end-to-end example: `x` with no default,
`y` with default literal `0`. -/
def pointAttrs : List Attribute := [⟨"x", none⟩, ⟨"y", some (.literal "0")⟩]

/-- Nested modules `A` and `A::B` with a declaration `A::B::X`
(node indices 0, 1, 2). -/
def arenaAB : Arena := ⟨[
  { context := none, name := some "A", names := [("B", 1)],
    isModule := true, isCtx := true },
  { context := some 0, name := some "B", names := [("X", 2)],
    isModule := true, isCtx := true },
  { context := some 1, name := some "X", names := [],
    isModule := false, isCtx := false }]⟩

/-- A root package `R` with sibling modules `R::M1` (the module being
emitted, holding `S0`) and `R::M` (holding `S`); node indices 0–4. -/
def arenaRM : Arena := ⟨[
  { context := none, name := some "R", names := [("M1", 1), ("M", 2)],
    isModule := true, isCtx := true },
  { context := some 0, name := some "M1", names := [("S0", 3)],
    isModule := true, isCtx := true },
  { context := some 0, name := some "M", names := [("S", 4)],
    isModule := true, isCtx := true },
  { context := some 1, name := some "S0", names := [],
    isModule := false, isCtx := false },
  { context := some 2, name := some "S", names := [],
    isModule := false, isCtx := false }]⟩

/-- `n` successive contributions of the cross-module reference `M::S` to
module `M1`'s import set, starting from an empty set. -/
def contribMS : Nat → Except String Imports
  | 0 => .ok []
  | n + 1 =>
      (contribMS n).bind (fun imports =>
        (typeRefAddImports arenaRM 20 1 "M::S" imports).map
          (fun r => r.imports))

/-- A full-bodied destructor (one statement, `close()`). -/
def dtorFull : Destructor :=
  ⟨[], some [.invoke (.variableReference "close") []]⟩

/-- A second full-bodied destructor. -/
def dtorFull2 : Destructor := ⟨[], some [.literal "0"]⟩

/-- An empty-bodied (placeholder) destructor: statements still `None`. -/
def dtorEmpty : Destructor := ⟨[], none⟩

/-- A one-node arena holding a single root module `A`. -/
def arenaOne : Arena :=
  ⟨[{ context := none, name := some "A", names := [],
      isModule := true, isCtx := true }]⟩

/-! ## Helper lemmas -/

theorem clear_line_eq (w : Writer) :
    w.clear_line = ⟨w.lines ++ flushOpt w.current, none, w.indent⟩ := by
  obtain ⟨ls, cur, ind⟩ := w
  cases cur <;> simp [Writer.clear_line, flushOpt]

theorem attr_output_init (a : Attribute) (L : List (Nat × String)) (i : Nat) :
    a.output ⟨L, none, i⟩ true = ⟨L ++ [(i, attrInitStr a)], none, i⟩ := by
  cases hv : a.value <;>
    simp [Attribute.output, Writer.write, Writer.clear_line, attrInitStr,
      hv, String.append_assoc]

/-- The synthesized-initializer body loop of `Struct.output`/`Union.output`
(`for name, attr in self.attributes.items(): out.clear_line();
attr.output(out, init=True)`): starting anywhere, it flushes the pending
line and then emits one assignment line per attribute, in declaration
order, at the current indentation level. -/
theorem attr_fold (a0 : Attribute) (attrs : List Attribute) (w : Writer) :
    (a0 :: attrs).foldl
        (fun (out : Writer) (x : Attribute) => x.output out.clear_line true) w
      = ⟨w.clear_line.lines ++
          (a0 :: attrs).map (fun x => (w.indent, attrInitStr x)),
         none, w.indent⟩ := by
  induction attrs generalizing a0 w with
  | nil =>
      rw [List.foldl_cons, List.foldl_nil, clear_line_eq, attr_output_init]
      simp [clear_line_eq]
  | cons a1 rest ih =>
      rw [List.foldl_cons, ih a1, clear_line_eq w, attr_output_init]
      simp [Writer.clear_line, flushOpt, String.append_assoc]

theorem mem_dictInsert_self {α β : Type} [DecidableEq α] (k : α) (v : β) :
    ∀ (l : List (α × β)), (k, v) ∈ dictInsert k v l := by
  intro l
  induction l with
  | nil => simp [dictInsert]
  | cons p rest ih =>
      obtain ⟨k1, v1⟩ := p
      by_cases hk : k1 = k <;> simp [dictInsert, hk, ih]

theorem dictInsert_dictInsert_same {α β : Type} [DecidableEq α] (k : α)
    (v w : β) : ∀ (l : List (α × β)),
    dictInsert k v (dictInsert k w l) = dictInsert k v l := by
  intro l
  induction l with
  | nil => simp [dictInsert]
  | cons p rest ih =>
      obtain ⟨k1, v1⟩ := p
      by_cases hk : k1 = k <;> simp [dictInsert, hk, ih]

theorem lookup_mem_pairs :
    ∀ (l : List (String × Nat)) (k : String) (j : Nat),
    l.lookup k = some j → (k, j) ∈ l := by
  intro l k j h
  induction l with
  | nil => simp [List.lookup] at h
  | cons p rest ih =>
      obtain ⟨a, b⟩ := p
      by_cases hk : k = a
      · subst hk
        simp [List.lookup] at h
        simp [h]
      · have hb : (k == a) = false := by simp [hk]
        simp [List.lookup, hb] at h
        exact List.mem_cons_of_mem _ (ih h)

theorem splitScopeAux_ne_nil (cs : List Char) : splitScopeAux cs ≠ [] := by
  rw [splitScopeAux.eq_def]
  split
  · simp
  · simp
  · split <;> simp

theorem splitScope_ne_nil (s : String) : splitScope s ≠ [] := by
  simp [splitScope, splitScopeAux_ne_nil]

theorem get?_mem_nodes {a : Arena} {i : Nat} {nd : Node}
    (h : a.get? i = some nd) : nd ∈ a.nodes :=
  List.get?_mem h

/-- Soundness of `Context.__getitem__`: a successful lookup only ever
returns a node registered in some context's name table (values flow only
out of `names` tables). -/
theorem getItem_ok_inSomeTable (a : Arena) :
    ∀ (fuel i : Nat) (q : String) (j : Nat),
    getItem a fuel i q = .ok j → inSomeTable a j := by
  intro fuel
  induction fuel with
  | zero => intro i q j h; simp [getItem] at h
  | succ f ih =>
    have foldStep :
        ∀ (parts : List String) (d j : Nat),
          (getItem a f d · : String → _) = (getItem a f d ·) →
          parts ≠ [] →
          parts.foldlM (fun d part => getItem a f d part) d = .ok j →
          inSomeTable a j := by
      intro parts
      induction parts with
      | nil => intro d j _ hne; exact absurd rfl hne
      | cons p rest ihp =>
        intro d j _ _ h
        rw [List.foldlM_cons] at h
        cases hg : getItem a f d p with
        | error e => rw [hg] at h; simp [Bind.bind, Except.bind] at h
        | ok d2 =>
          rw [hg] at h
          simp only [Bind.bind, Except.bind] at h
          cases rest with
          | nil =>
              simp [List.foldlM_nil, pure, Except.pure] at h
              subst h
              exact ih d p d2 hg
          | cons r rs => exact ihp d2 j rfl (by simp) h
    intro i q j h
    rw [getItem] at h
    cases hget : a.get? i with
    | none => rw [hget] at h; simp at h
    | some nd =>
      rw [hget] at h
      by_cases hctx : nd.isCtx
      · simp only [hctx, Bool.not_true, if_neg] at h
        simp only [Bool.false_eq_true, if_false] at h
        by_cases hsc : containsScope (stripQualifiers q).data
        · rw [if_pos hsc] at h
          exact foldStep (splitScope (stripQualifiers q))
            (rootIdx a a.nodes.length i) j rfl
            (splitScope_ne_nil _) h
        · rw [if_neg hsc] at h
          cases hl : (tableOf a i).lookup (stripQualifiers q) with
          | some j2 =>
              rw [hl] at h
              simp at h
              refine ⟨nd, get?_mem_nodes hget, (stripQualifiers q, j), ?_, rfl⟩
              have hm := lookup_mem_pairs _ _ _ hl
              rw [h] at hm
              simpa [tableOf, hget] using hm
          | none =>
              rw [hl] at h
              cases hp : nd.context with
              | some parent => rw [hp] at h; exact ih parent (stripQualifiers q) j h
              | none => rw [hp] at h; simp at h
      · simp [hctx] at h

/-! ## Claim C3 -/

/-- C3 (counterexample): with nested modules `A` and `A::B` holding
`A::B::X` (nodes 0, 1, 2 of `arenaAB`), looking up `"B::X"` from `A` and
`"X"` from `A::B` both resolve to `X`, but looking up the fully qualified
`"A::B::X"` from the root raises a name-resolution error — resolution
restarts at the root, and the root module's own name `"A"` is registered
in no table (a root has no parent context to register into) — so the
claim's three-way equivalence is false. -/
theorem claim_C3_counterexample :
    getItem arenaAB 20 0 "B::X" = .ok 2
    ∧ getItem arenaAB 20 1 "X" = .ok 2
    ∧ getItem arenaAB 20 0 "A::B::X" = .error "KeyError: A" :=
  ⟨rfl, rfl, rfl⟩

/-- C3 (amended): for nested modules `A` and `A::B` containing
`A::B::X`, lookup of `"B::X"` from context `A` and lookup of `"X"` from
context `A::B` both succeed and resolve to the same node; lookup first
literally strips `const`, `class`, `virtual` and whitespace (so
`"const class X "` from `A::B` also resolves to that node), restarts at
the root and descends segment-by-segment when the stripped name contains
`"::"`, and otherwise checks the local table and delegates to the parent
chain.  Lookup of the fully qualified `"A::B::X"` from the root fails with
a name-resolution error, because the first segment `"A"` is resolved
against the root itself and a root module's own name is in no table. -/
theorem claim_C3_amended :
    getItem arenaAB 20 0 "B::X" = .ok 2
    ∧ getItem arenaAB 20 1 "X" = .ok 2
    ∧ getItem arenaAB 20 1 "const class X " = .ok 2
    ∧ ∃ e, getItem arenaAB 20 0 "A::B::X" = .error e :=
  ⟨rfl, rfl, rfl, "KeyError: A", rfl⟩

/-! ## Claim C4 -/

/-- C4 (code bug): at emission time import paths are sorted and a path
with named symbols becomes one grouped from-import with sorted symbol
names, and an (unreachable) empty symbol set would emit a bare import —
but a bare module import recorded through `add_import(path)` puts `None`
into the symbol set, which makes the set non-empty, so `Module.output`
takes the grouped-import branch and raises a `TypeError` joining `None`
instead of emitting the bare `import path` line the claim describes. -/
theorem claim_C4 :
    addImport [] "p" none = [("p", [none])]
    ∧ importLines [("p", [none])]
        = .error "TypeError: expected str instance, NoneType found"
    ∧ importLines [("zeta", [some "y", some "x"]), ("alpha", [some "q"]),
        ("beta", [])]
        = .ok ["from alpha import q", "import beta", "from zeta import x, y"] :=
  ⟨rfl, rfl, rfl⟩

/-! ## Claim C6 -/

/-- C6: `UnaryOperation.output` and `BinaryOperation.output` translate the
operator token through a fixed lookup table; the logical operators get
word form (`&&` ↦ `and`, `||` ↦ `or`, `!` ↦ `not`), every other key of the
table keeps its symbolic spelling (surrounded by single spaces), any token
outside the table passes through unchanged, and
`BinaryOperation(Literal(1), "&&", Literal(0))` renders as `"1 and 0"`. -/
theorem claim_C6 :
    pythonBinaryOp "&&" = " and "
    ∧ pythonBinaryOp "||" = " or "
    ∧ pythonUnaryOp "!" = "not "
    ∧ pythonUnaryOp "~" = "~"
    ∧ (∀ op ∈ binaryOpKeys, op ≠ "&&" → op ≠ "||" →
        pythonBinaryOp op = " " ++ op ++ " ")
    ∧ (∀ s, s ∉ binaryOpKeys → pythonBinaryOp s = s)
    ∧ (∀ s, s ≠ "!" → s ≠ "~" → pythonUnaryOp s = s)
    ∧ Expr.out (.binaryOperation (.literal "1") "&&" (.literal "0"))
        = "1 and 0" := by
  refine ⟨rfl, rfl, rfl, rfl, by decide, ?_, ?_, rfl⟩
  · intro s h
    unfold pythonBinaryOp
    split <;> simp_all [binaryOpKeys]
  · intro s h1 h2
    unfold pythonUnaryOp
    split <;> simp_all

/-- C6 witness: the passthrough clauses applied at concrete tokens outside
the tables, and a symbolic-spelling clause applied at `"=="`. -/
theorem claim_C6_witness :
    pythonBinaryOp "@" = "@" ∧ pythonUnaryOp "-" = "-"
    ∧ pythonBinaryOp "==" = " == " :=
  ⟨claim_C6.2.2.2.2.2.1 "@" (by decide),
   claim_C6.2.2.2.2.2.2.1 "-" (by decide) (by decide),
   claim_C6.2.2.2.2.1 "==" (by decide) (by decide) (by decide)⟩

/-! ## Claim C7 -/

/-- C7 (code bug): a `Class`, `Struct` or `Union` with no attributes,
constructors, destructor, methods or nested classes emits a body of
exactly one `pass` placeholder line, and `Class.output` and
`Struct.output` leave the writer at its starting indentation level — but
`Union.output` calls `end_block` twice for an empty union (one call sits
inside its `else` branch, `model.py` line 456, one after it, line 457),
leaving the writer one level shallower than it started. -/
theorem claim_C7 :
    ClassLike.output 1 (.cls "C" none [] none [] [] []) w1
      = ⟨[(1, "class C:"), (2, "pass")], none, 1⟩
    ∧ ClassLike.output 1 (.strct "S" none [] none [] [] []) w1
      = ⟨[(1, "class S:"), (2, "pass")], none, 1⟩
    ∧ ClassLike.output 1 (.uni "U" none [] [] []) w1
      = ⟨[(1, "class U:"), (2, "pass")], none, 0⟩
    ∧ (ClassLike.output 1 (.uni "U" none [] [] []) w1).indent ≠ w1.indent :=
  ⟨rfl, rfl, rfl, by decide⟩

/-! ## Claim C9 -/

/-- C9: `clean_argument` strips address-of (`&`) and dereference (`*`)
unary wrappers recursively, returns any `ArraySubscript` unchanged,
unwraps a `Cast` to its underlying value (dropping the conversion that
`Cast.output` would emit), and returns every other expression unchanged. -/
theorem claim_C9 :
    (∀ v : Expr, (Expr.unaryOperation "&" v).clean_argument = v.clean_argument)
    ∧ (∀ v : Expr, (Expr.unaryOperation "*" v).clean_argument = v.clean_argument)
    ∧ (∀ (op : String) (v : Expr), op ≠ "&" → op ≠ "*" →
        (Expr.unaryOperation op v).clean_argument = .unaryOperation op v)
    ∧ (∀ v i : Expr, (Expr.arraySubscript v i).clean_argument = .arraySubscript v i)
    ∧ (∀ (t : TypeKind) (v : Expr), (Expr.cast t v).clean_argument = v)
    ∧ (∀ s, (Expr.literal s).clean_argument = .literal s)
    ∧ (∀ l, (Expr.listLiteral l).clean_argument = .listLiteral l)
    ∧ (∀ l op r, (Expr.binaryOperation l op r).clean_argument
        = .binaryOperation l op r)
    ∧ (∀ c t f : Expr, (Expr.conditionalOperation c t f).clean_argument
        = .conditionalOperation c t f)
    ∧ (∀ b, (Expr.parentheses b).clean_argument = .parentheses b)
    ∧ (∀ fn args, (Expr.invoke fn args).clean_argument = .invoke fn args)
    ∧ (∀ tr args, (Expr.newObject tr args).clean_argument = .newObject tr args)
    ∧ Expr.selfReference.clean_argument = .selfReference
    ∧ (∀ e s, (Expr.attributeReference e s).clean_argument
        = .attributeReference e s)
    ∧ (∀ s, (Expr.variableReference s).clean_argument = .variableReference s)
    ∧ (∀ s, (Expr.typeReference s).clean_argument = .typeReference s)
    ∧ (∀ s, (Expr.primitiveTypeReference s).clean_argument
        = .primitiveTypeReference s) := by
  refine ⟨fun v => rfl, fun v => rfl, ?_, fun v i => rfl, fun t v => rfl,
    fun s => rfl, fun l => rfl, fun l op r => rfl, fun c t f => rfl,
    fun b => rfl, fun fn args => rfl, fun tr args => rfl, rfl,
    fun e s => rfl, fun s => rfl, fun s => rfl, fun s => rfl⟩
  intro op v h1 h2
  simp [Expr.clean_argument, h1, h2]

/-- C9 witness: the recursive stripping applied to `&*&x` reaches `x`, a
non-pointer unary operation is left unchanged, and a cast around a
subscript is unwrapped. -/
theorem claim_C9_witness :
    (Expr.unaryOperation "&"
      (Expr.unaryOperation "*"
        (Expr.unaryOperation "&" (.variableReference "x")))).clean_argument
      = .variableReference "x"
    ∧ (Expr.unaryOperation "!" (.literal "1")).clean_argument
      = .unaryOperation "!" (.literal "1")
    ∧ (Expr.cast .INT (.arraySubscript (.variableReference "buf")
        (.literal "0"))).clean_argument
      = .arraySubscript (.variableReference "buf") (.literal "0") := by
  refine ⟨?_, ?_, ?_⟩
  · rw [claim_C9.1, claim_C9.2.1, claim_C9.1]
    exact claim_C9.2.2.2.2.2.2.2.2.2.2.2.2.2.2.1 "x"
  · exact claim_C9.2.2.1 "!" (.literal "1") (by decide) (by decide)
  · exact claim_C9.2.2.2.2.1 .INT _

/-! ## Claim C2 -/

/-- C2 (counterexample): `add_destructor` raises its fatal duplicate error
even when the incoming destructor has no statement body, as long as the
already-registered one does — the source (`model.py` 501–508, 349–356)
only inspects the registered destructor's `statements`.  The claim's
"exactly when both ... have statement bodies" is therefore false: here the
incoming destructor's `statements` is `None`, yet the call raises. -/
theorem claim_C2_counterexample :
    add_destructor (some dtorFull) dtorEmpty
      = .error "Cannot handle multiple desructors"
    ∧ dtorEmpty.statements = none :=
  ⟨rfl, rfl⟩

/-- C2 (amended): adding a destructor when none is registered stores it;
whenever the call succeeds the stored destructor is the incoming one (so a
full-bodied destructor replaces an empty-bodied placeholder, in
particular); and the call raises the fatal duplicate error exactly when
the already-registered destructor has a statement body, regardless of the
incoming destructor's body.  The stored destructor is what `Class.output`
then emits: a class holding the full-bodied destructor emits its
`__del__` with that body. -/
theorem claim_C2_amended :
    (∀ (cur : Option Destructor) (m : Destructor),
      ((∃ e, add_destructor cur m = .error e)
          ↔ ∃ d, cur = some d ∧ d.statements ≠ none)
      ∧ (∀ r, add_destructor cur m = .ok r → r = some m))
    ∧ add_destructor (some dtorEmpty) dtorFull = .ok (some dtorFull)
    ∧ contentLines
        (ClassLike.output 1 (.cls "D" none [] (some dtorFull) [] [] []) w0)
        = [(0, "class D:"), (1, "def __del__(self):"), (2, "close()")] := by
  refine ⟨?_, rfl, rfl⟩
  intro cur m
  cases cur with
  | none => simp [add_destructor]
  | some d =>
      cases hd : d.statements with
      | none => simp [add_destructor, hd]
      | some l =>
          constructor
          · constructor
            · intro _
              exact ⟨d, rfl, by simp [hd]⟩
            · intro _
              exact ⟨"Cannot handle multiple desructors", by
                simp [add_destructor, hd, Option.isNone]⟩
          · intro r hr
            simp [add_destructor, hd, Option.isNone] at hr

/-- C2 witness: the amended error characterisation applied to two
full-bodied destructors (the classic duplicate) yields the fatal error. -/
theorem claim_C2_witness :
    ∃ e, add_destructor (some dtorFull2) dtorFull = .error e :=
  (claim_C2_amended.1 (some dtorFull2) dtorFull).1.mpr
    ⟨dtorFull2, rfl, by simp [dtorFull2]⟩

/-! ## Claim C8 -/

/-- C8: `Struct.add_constructor` only prints a diagnostic and leaves the
struct unchanged; `Class.add_constructor` stores the constructor keyed by
the tuple of its parameters' declared ctypes, where a same-signature
registration overwrites the earlier one (the table is as if only the
newer had been added), and a second, distinct signature is kept alongside
the first while emitting the non-fatal "Multiple constructors" diagnostic
(which a sole first registration does not emit). -/
theorem claim_C8 :
    (∀ (s : ClassLike) (m : Constructor), structAddConstructor s m = (s, true))
    ∧ (∀ (d : List (List String × Constructor)) (m m2 : Constructor),
        m2.parameters.map (fun p => p.ctype)
            = m.parameters.map (fun p => p.ctype) →
        (classAddConstructor (classAddConstructor d m).1 m2).1
          = (classAddConstructor d m2).1)
    ∧ (∀ (m m2 : Constructor),
        m.parameters.map (fun p => p.ctype)
            ≠ m2.parameters.map (fun p => p.ctype) →
        (classAddConstructor (classAddConstructor [] m).1 m2).1
          = [(m.parameters.map (fun p => p.ctype), m),
             (m2.parameters.map (fun p => p.ctype), m2)]
        ∧ (classAddConstructor (classAddConstructor [] m).1 m2).2 = true
        ∧ (classAddConstructor [] m).2 = false) := by
  refine ⟨fun s m => rfl, ?_, ?_⟩
  · intro d m m2 hsig
    simp only [classAddConstructor, hsig]
    rw [dictInsert_dictInsert_same]
  · intro m m2 hsig
    refine ⟨?_, ?_, rfl⟩
    · simp [classAddConstructor, dictInsert, hsig]
    · simp [classAddConstructor, dictInsert, hsig]

/-- C8 witness: the three clauses applied at concrete constructors — a
no-parameter struct constructor is dropped with a diagnostic; an
`(int)`-signature constructor overwrites an earlier `(int)` one; an
`(int)` then a `(float)` are both kept and the second registration
prints the diagnostic while the first does not. -/
theorem claim_C8_witness :
    structAddConstructor (.strct "S" none [] none [] [] []) ⟨[], []⟩
      = (.strct "S" none [] none [] [] [], true)
    ∧ (classAddConstructor
        (classAddConstructor [] ⟨[⟨"a", "int", none⟩], []⟩).1
        ⟨[⟨"b", "int", none⟩], [.literal "1"]⟩).1
      = (classAddConstructor [] ⟨[⟨"b", "int", none⟩], [.literal "1"]⟩).1
    ∧ (classAddConstructor
        (classAddConstructor [] ⟨[⟨"a", "int", none⟩], []⟩).1
        ⟨[⟨"b", "float", none⟩], []⟩).1
      = [(["int"], ⟨[⟨"a", "int", none⟩], []⟩),
         (["float"], ⟨[⟨"b", "float", none⟩], []⟩)]
    ∧ (classAddConstructor
        (classAddConstructor [] ⟨[⟨"a", "int", none⟩], []⟩).1
        ⟨[⟨"b", "float", none⟩], []⟩).2 = true
    ∧ (classAddConstructor [] ⟨[⟨"a", "int", none⟩], []⟩).2 = false := by
  refine ⟨claim_C8.1 _ _, claim_C8.2.1 [] _ _ rfl, ?_⟩
  have h := claim_C8.2.2 ⟨[⟨"a", "int", none⟩], []⟩ ⟨[⟨"b", "float", none⟩], []⟩
    (by decide)
  exact ⟨h.1, h.2.1, h.2.2⟩

/-! ## Claim C5 -/

/-- C5: contributing imports for a qualified reference to a symbol of the
module being emitted (`M1::S0` from `R::M1`) adds no entry to that
module's import set, and contributing the cross-module reference `M::S`
from sibling module `R::M` any positive number of times leaves exactly
one entry, keyed by the declaring module's dotted scope path `R.M` and
containing the symbol `S` once. -/
theorem claim_C5 (n : Nat) (hn : 1 ≤ n) :
    (typeRefAddImports arenaRM 20 1 "M1::S0" []).map (fun r => r.imports)
      = .ok []
    ∧ contribMS n = .ok [("R.M", [some "S"])] := by
  refine ⟨rfl, ?_⟩
  induction n with
  | zero => exact absurd hn (by decide)
  | succ m ih =>
      cases m with
      | zero => rfl
      | succ k =>
          have h := ih (Nat.succ_le_succ (Nat.zero_le k))
          show (contribMS (k + 1)).bind _ = _
          rw [h]
          rfl

/-- C5 witness: the spec's "three times" instance. -/
theorem claim_C5_witness :
    (typeRefAddImports arenaRM 20 1 "M1::S0" []).map (fun r => r.imports)
      = .ok []
    ∧ contribMS 3 = .ok [("R.M", [some "S"])] :=
  claim_C5 3 (by decide)

/-! ## Claim C1 -/

/-- C1 (counterexample): a `Class` "Point" with attributes `x` (no
default) and `y` (default literal `0`) and no constructors, destructor,
methods or nested classes emits a body of exactly one `pass` line —
`Class.output` tests `constructors or destructor or classes or methods`
(not attributes) and synthesizes no initializer at all, so the claimed
synthesized `__init__` for a `Class` does not exist. -/
theorem claim_C1_counterexample :
    ClassLike.output 1 (.cls "Point" none [] none pointAttrs [] []) w0
      = ⟨[(0, "class Point:"), (1, "pass")], none, 0⟩
    ∧ (ClassLike.output 1 (.cls "Point" none [] none pointAttrs [] []) w0).lines.map
        Prod.snd = ["class Point:", "pass"] :=
  ⟨rfl, rfl⟩

/-- C1 (amended): the synthesized initializer belongs to `Struct.output`
(and `Union.output`), not `Class.output`.  For a `Struct` with attributes
and no destructor, methods, or nested classes, emission outputs a
synthesized initializer taking one optional (`=None`) parameter per
attribute in declaration order; its body assigns each no-default
attribute unconditionally from the caller-supplied value
(`self.n = n`) and each defaulted attribute conditionally
(`self.n = n if n else <default>`), in declaration order. -/
theorem claim_C1_amended (name : String) (attrs : List Attribute) (k : Nat)
    (h : attrs ≠ []) :
    ClassLike.output (k + 1) (.strct name none [] none attrs [] []) w0
      = ⟨(0, "class " ++ name ++ ":")
          :: (1, "def __init__(self"
                ++ String.join (attrs.map (fun a => ", " ++ a.name ++ "=None"))
                ++ "):")
          :: attrs.map (fun a => (2, attrInitStr a)),
         none, 0⟩ := by
  obtain ⟨a0, rest, rfl⟩ := List.exists_cons_of_ne_nil h
  simp only [ClassLike.output, List.isEmpty_cons, Bool.not_false, Bool.true_or,
    if_true, List.foldl_nil]
  rw [attr_fold]
  simp [Writer.clear_major_block, Writer.ensureBlanks, Writer.clear_line,
    dropTrailingBlanks, Writer.write, Writer.start_block, Writer.end_block, w0]

/-- C1 witness: the spec's "Point" example as a `Struct`: two optional
parameters, `x` assigned unconditionally, `y` conditionally with default
`0`. -/
theorem claim_C1_witness :
    ClassLike.output 1 (.strct "Point" none [] none pointAttrs [] []) w0
      = ⟨[(0, "class Point:"), (1, "def __init__(self, x=None, y=None):"),
          (2, "self.x = x"), (2, "self.y = y if y else 0")], none, 0⟩ := by
  rw [claim_C1_amended "Point" pointAttrs 0 (by simp [pointAttrs])]
  rfl

/-! ## Claim C10 -/

/-- C10: constructing a `Declaration` registers the new node into its
parent context's name table if and only if both the context and the name
are non-empty (`context` is not `None`, `name` is neither `None` nor the
empty string) — and name lookup only ever returns nodes registered in some
table, so an anonymous node (`Constructor`, `Destructor`, `Block`, `If`
are all constructed with `name=None`) never appears in any context's name
table and is never reachable by name lookup. -/
theorem claim_C10 (a : Arena) (context : Option Nat) (name : Option String)
    (isModule isCtx : Bool) (hb : tablesBounded a)
    (hc : ∀ c, context = some c → c < a.nodes.length) :
    (inSomeTable (declInit a context name isModule isCtx) a.nodes.length
       ↔ context.isSome ∧ ∃ s, name = some s ∧ s ≠ "")
    ∧ (∀ fuel i q j,
        getItem (declInit a context name isModule isCtx) fuel i q = .ok j →
        inSomeTable (declInit a context name isModule isCtx) j) := by
  refine ⟨⟨?_, ?_⟩, fun fuel i q j h => getItem_ok_inSomeTable _ fuel i q j h⟩
  · intro hmem
    by_contra hcond
    have happ : declInit a context name isModule isCtx
        = ⟨a.nodes ++ [Node.mk context name [] isModule isCtx]⟩ := by
      cases context with
      | none => rfl
      | some c =>
          cases name with
          | none => rfl
          | some s =>
              have hs : s = "" := by
                by_contra hne
                exact hcond ⟨by simp, s, rfl, hne⟩
              simp [declInit, hs]
    rw [happ] at hmem
    obtain ⟨nd, hnd, p, hp, hpj⟩ := hmem
    rcases List.mem_append.mp hnd with hmem1 | hmem2
    · have := hb nd hmem1 p hp
      omega
    · simp at hmem2
      subst hmem2
      simp at hp
  · rintro ⟨hctxSome, s, hname, hsne⟩
    obtain ⟨c, hctx⟩ := Option.isSome_iff_exists.mp hctxSome
    subst hctx
    subst hname
    have hclen := hc c rfl
    set newNode : Node := Node.mk (some c) (some s) [] isModule isCtx
      with hnew
    have hget : (a.nodes ++ [newNode])[c]? = a.nodes[c]? :=
      List.getElem?_append_left hclen
    obtain ⟨nd, hnd⟩ : ∃ nd, a.nodes[c]? = some nd :=
      ⟨_, List.getElem?_eq_getElem hclen⟩
    have hform : declInit a (some c) (some s) isModule isCtx
        = ⟨(a.nodes ++ [newNode]).set c
            { nd with names := dictInsert s a.nodes.length nd.names }⟩ := by
      simp [declInit, hsne, hget, hnd]
    rw [hform]
    refine ⟨{ nd with names := dictInsert s a.nodes.length nd.names },
      ?_, (s, a.nodes.length), mem_dictInsert_self s a.nodes.length nd.names,
      rfl⟩
    have hlt : c < (a.nodes ++ [newNode]).length := by
      simp [List.length_append]
      omega
    exact List.get?_mem
      ((List.get?_eq_getElem? _ _).trans (List.getElem?_set_eq_of_lt _ hlt))

/-- C10 witness: in a one-module arena, an anonymous construction (name
`None`, as for `Constructor`/`Destructor`/`Block`/`If`) leaves the new
node in no name table, while a named construction registers it. -/
theorem claim_C10_witness :
    ¬ inSomeTable (declInit arenaOne (some 0) none true true) 1
    ∧ inSomeTable (declInit arenaOne (some 0) (some "B") true true) 1 := by
  constructor
  · intro hmem
    have h := (claim_C10 arenaOne (some 0) none true true
      (by decide) (by intro c hce; cases hce; decide)).1.mp hmem
    simp at h
  · exact (claim_C10 arenaOne (some 0) (some "B") true true
      (by decide) (by intro c hce; cases hce; decide)).1.mpr
      ⟨by simp, "B", rfl, by decide⟩

end Seasnake
